import Mathlib

set_option linter.unusedVariables false

/-!
Verification of the scheduler / request-routing / process-lifecycle subsystem
of cargo-lambda's watch server (`crates/cargo-lambda-watch/src/scheduler.rs`),
as a shallow embedding in Lean 4.

The embedding covers: the Request Cache contract (modelled from the spec, the
cache implementation lives outside the sources at hand), the Scheduler event
loop `start_scheduler`, the Function Runner `start_function`, binary-name
derivation (`is_valid_bin_name`, `cargo_command`), the Process Supervisor
construction worker, and `init_scheduler`.
-/

namespace CargoLambdaWatch

/-- Decidable equality for `Except`, used to evaluate the model's fallible
operations on concrete inputs. -/
instance {ε α : Type} [DecidableEq ε] [DecidableEq α] : DecidableEq (Except ε α)
  | .ok a, .ok b =>
    if h : a = b then isTrue (congrArg Except.ok h)
    else isFalse (fun hc => h (Except.ok.inj hc))
  | .error a, .error b =>
    if h : a = b then isTrue (congrArg Except.error h)
    else isFalse (fun hc => h (Except.error.inj hc))
  | .ok _, .error _ => isFalse (fun hc => Except.noConfusion hc)
  | .error _, .ok _ => isFalse (fun hc => Except.noConfusion hc)

/-- Server-side error type (`crate::error::ServerError`). The real enum is not
in the sources at hand; only the variants exercised by the scheduler code are
modelled: a cache error for a structurally invalid function identifier, a
construction failure from the watcher builder, and the error produced when the
construction-reply oneshot channel is closed (`oneshot::error::RecvError`
converted into `ServerError` by the second question mark on line 115). -/
inductive ServerError where
  | invalidFunction (name : String)
  | watcherConstruction
  | replyChannelClosed
  deriving DecidableEq, Repr

/-- One pending invocation (`crate::requests::InvokeRequest`). The real struct
carries payload, deadline and a response channel; the scheduler only inspects
the target function name. Modelled from the spec: the spec says `upsert`
"fails with a cache-full or invalid-function error if the function name is
structurally invalid" without pinning the validity predicate, so structural
invalidity of the name is abstracted as the Boolean field `invalid`. -/
structure InvokeRequest where
  functionName : String
  invalid : Bool
  payload : Nat
  deriving DecidableEq, Repr

/-- One Request Cache entry: the function's control-plane API id and the FIFO
queue of pending invocations. Modelled from the spec: presence of an entry in
the cache means the function is starting or running; absence means
not-started. -/
structure FunctionEntry where
  apiId : String
  queue : List InvokeRequest
  deriving DecidableEq, Repr

/-- The Request Cache: an association list from function name to entry, plus a
counter from which fresh API ids are drawn. Modelled from the spec: mapping
from function name to an entry holding the API id and the ordered queue of
InvokeRequests. -/
structure ReqCache where
  entries : List (String × FunctionEntry)
  nextApi : Nat
  deriving DecidableEq, Repr

/-- Lookup of a function's entry in the cache's association list. -/
def findEntry : List (String × FunctionEntry) → String → Option FunctionEntry
  | [], _ => none
  | p :: rest, name => if p.1 = name then some p.2 else findEntry rest name

/-- Replacement of a function's entry in the association list. -/
def updateEntry : List (String × FunctionEntry) → String → FunctionEntry →
    List (String × FunctionEntry)
  | [], _, _ => []
  | p :: rest, name, e =>
    if p.1 = name then (p.1, e) :: updateEntry rest name e
    else p :: updateEntry rest name e

/-- Removal of a function's entry from the association list. -/
def removeEntry : List (String × FunctionEntry) → String →
    List (String × FunctionEntry)
  | [], _ => []
  | p :: rest, name =>
    if p.1 = name then removeEntry rest name else p :: removeEntry rest name

/-- Lookup of a function name in the cache. -/
def lookupFn (c : ReqCache) (name : String) : Option FunctionEntry :=
  findEntry c.entries name

/-- Modelled from the spec: `RuntimeState.req_cache.upsert`. The cache
implementation is not in the sources at hand. Per the spec: inserts the
request into the target function's queue; if this is the first request for a
function currently not-started, transitions the entry to starting, assigns a
fresh API id and returns the spawn directive `some (name, api)`; if the
function is already starting or running, returns `none` and only enqueues;
fails with an invalid-function error if the function name is structurally
invalid, and otherwise always succeeds. -/
def upsert (c : ReqCache) (req : InvokeRequest) :
    Except ServerError (ReqCache × Option (String × String)) :=
  if req.invalid then
    .error (.invalidFunction req.functionName)
  else
    match findEntry c.entries req.functionName with
    | some e =>
      .ok ({ c with
              entries := updateEntry c.entries req.functionName
                { e with queue := e.queue ++ [req] } },
           none)
    | none =>
      let api := toString c.nextApi
      .ok ({ entries := c.entries ++ [(req.functionName, ⟨api, [req]⟩)],
             nextApi := c.nextApi + 1 },
           some (req.functionName, api))

/-- Modelled from the spec: `RuntimeState.req_cache.clean`. Removes the cache
entry for the function entirely; cleaning an absent entry is a no-op. -/
def clean (c : ReqCache) (name : String) : ReqCache :=
  { c with entries := removeEntry c.entries name }

/-- A sequence of `upsert` calls threaded through the cache, collecting the
spawn directives returned by each call; an error aborts the sequence (a
harness for the spec's "for all sequences of upsert calls" properties). -/
def upsertAll (c : ReqCache) :
    List InvokeRequest →
    Except ServerError (ReqCache × List (Option (String × String)))
  | [] => .ok (c, [])
  | r :: rest =>
    match upsert c r with
    | .error e => .error e
    | .ok (c', d) =>
      match upsertAll c' rest with
      | .error e => .error e
      | .ok (c'', ds) => .ok (c'', d :: ds)

/-- Lifecycle events consumed by extension listeners
(`crate::requests::NextEvent`): an invoke notification or a shutdown with a
human-readable reason. Only the shutdown variant is produced by this core. -/
inductive NextEvent where
  | invoke (meta : String)
  | shutdown (reason : String)
  deriving DecidableEq, Repr

/-- Build/run options forwarded from the CLI (`CargoOptions`): only the fields
the scheduler reads (`features`, `release`, `manifest_path`). -/
structure CargoOptions where
  features : Option String
  release : Bool
  manifest_path : Option String
  deriving DecidableEq, Repr

/-- Watch configuration (`crate::watcher::WatcherConfig`): only the fields the
scheduler reads or writes (`only_lambda_apis`, `bin_name`, `name`,
`runtime_api`); watch paths and debounce settings are owned by the watcher and
never touched here. -/
structure WatcherConfig where
  only_lambda_apis : Bool
  bin_name : Option String
  name : String
  runtime_api : String
  deriving DecidableEq, Repr

/-- Start command handed to the Process Supervisor
(`watchexec::command::Command`), variant `Exec { prog, args }`. -/
inductive Command where
  | Exec (prog : String) (args : List String)
  deriving DecidableEq, Repr

/-- The argument list of a command. -/
def Command.args : Command → List String
  | .Exec _ a => a

/-- Modelled from the spec: `cargo_lambda_invoke::DEFAULT_PACKAGE_FUNCTION`,
the default-package sentinel. The constant lives in the invoke crate, outside
the sources at hand; its concrete value is immaterial to every claim, which
only compares names against it. -/
def DEFAULT_PACKAGE_FUNCTION : String := "_"

/-- Translation of `is_valid_bin_name` (scheduler.rs lines 132-134): a name is
a valid binary name when it is non-empty and differs from the default-package
sentinel. -/
def is_valid_bin_name (name : String) : Bool :=
  name ≠ "" && name ≠ DEFAULT_PACKAGE_FUNCTION

/-- Translation of `cargo_command` (scheduler.rs lines 136-156): `cargo run`,
then `--features <f>` when features are set, then `--release` when a release
build is requested, then `--bin <name>` when the name is a valid binary
name. -/
def cargo_command (name : String) (cargo_options : CargoOptions) : Command :=
  let args := ["run"]
  let args := match cargo_options.features with
    | some features => args ++ ["--features", features]
    | none => args
  let args := if cargo_options.release then args ++ ["--release"] else args
  let args := if is_valid_bin_name name then args ++ ["--bin", name] else args
  .Exec "cargo" args

/-- Translation of the WatcherConfig mutation in `start_function`
(scheduler.rs lines 101-107): `bin_name` is set exactly when the name is a
valid binary name, and the function name and runtime API id are recorded. -/
def runnerWatcherConfig (name : String) (runtime_api : String)
    (wc : WatcherConfig) : WatcherConfig :=
  { wc with
      bin_name := if is_valid_bin_name name then some name else none,
      name := name,
      runtime_api := runtime_api }

/-- Outcome of the construction worker's oneshot reply as observed by
`rx.blocking_recv()??` (scheduler.rs line 115): the oneshot channel was closed
without a reply (first question mark), the watcher builder failed (second
question mark), or a Process Supervisor handle was delivered. -/
inductive ConstructionReply where
  | closed
  | failed (e : ServerError)
  | built
  deriving DecidableEq, Repr

/-- Which branch of the `tokio::select!` race in `start_function`
(scheduler.rs lines 117-126) completes first: the Process Supervisor's main
future ending, or the shutdown-requested signal. -/
inductive RaceWinner where
  | processExit
  | shutdownRequested
  deriving DecidableEq, Repr

/-- The environment a single Function Runner execution observes: the
construction reply, the winner of the exit/shutdown race, and whether the
garbage-collect channel still has a live receiver when the runner sends on
it. -/
structure RunnerEnv where
  reply : ConstructionReply
  race : RaceWinner
  gcChannelOpen : Bool
  deriving DecidableEq, Repr

/-- Everything observable about one `start_function` execution: the command
sent to the construction worker, the WatcherConfig it was sent with, the
returned result, the garbage-collect messages passed to `gc_tx.send`, whether
a failed garbage-collect send was logged (the `error!` on line 120), and the
NextEvents broadcast to the Extension Notifier. -/
structure RunnerOutcome where
  cmd : Command
  config : WatcherConfig
  result : Except ServerError Unit
  gcSent : List String
  gc_send_logged : Bool
  events : List NextEvent
  deriving DecidableEq, Repr

/-- Translation of `start_function` (scheduler.rs lines 83-130): derive the
cargo command and watcher config, request a Process Supervisor from the
construction worker and await the oneshot reply (both question marks on line
115 propagate: a closed reply channel or a failed construction returns the
error immediately), then race process-exit against shutdown — on process-exit
send exactly one garbage-collect message carrying the function name (logging,
not escalating, a failed send), on shutdown send nothing — and finally
broadcast one Shutdown NextEvent with reason "<name> function shutting down"
(`ext_cache.send_event` is best-effort per the spec and always succeeds). -/
def start_function (name : String) (runtime_api : String)
    (cargo_options : CargoOptions) (wc : WatcherConfig) (env : RunnerEnv) :
    RunnerOutcome :=
  let cmd := cargo_command name cargo_options
  let config := runnerWatcherConfig name runtime_api wc
  match env.reply with
  | .closed =>
    { cmd := cmd, config := config, result := .error .replyChannelClosed,
      gcSent := [], gc_send_logged := false, events := [] }
  | .failed e =>
    { cmd := cmd, config := config, result := .error e,
      gcSent := [], gc_send_logged := false, events := [] }
  | .built =>
    match env.race with
    | .processExit =>
      { cmd := cmd, config := config, result := .ok (),
        gcSent := [name], gc_send_logged := !env.gcChannelOpen,
        events := [.shutdown (name ++ " function shutting down")] }
    | .shutdownRequested =>
      { cmd := cmd, config := config, result := .ok (),
        gcSent := [], gc_send_logged := false,
        events := [.shutdown (name ++ " function shutting down")] }

/-- One event arriving at the Scheduler loop's three-way `tokio::select!`
(scheduler.rs lines 56-80): an invocation from the ingress channel, a
garbage-collect name from a terminated runner, or the shutdown signal. -/
inductive SchedEvent where
  | invoke (req : InvokeRequest)
  | gc (name : String)
  | shutdown
  deriving DecidableEq, Repr

/-- Scheduler-loop state: the Request Cache plus the list of Function Runners
launched so far, as (name, api) pairs in launch order. -/
structure SchedState where
  cache : ReqCache
  spawned : List (String × String)
  deriving DecidableEq, Repr

/-- Result of one iteration of the Scheduler loop body. -/
inductive StepOutcome where
  | next (s : SchedState)
  | halt (s : SchedState)
  | fail (s : SchedState) (e : ServerError)
  deriving DecidableEq, Repr

/-- Translation of one iteration of the Scheduler loop body (scheduler.rs
lines 57-79): an invocation is upserted — the question mark on line 59
propagates an upsert error out of the loop — and a spawn directive launches a
Function Runner unless `only_lambda_apis` is set; a garbage-collect name is
cleaned from the cache; the shutdown signal returns `Ok(())`. -/
def schedStep (only_lambda_apis : Bool) (s : SchedState) :
    SchedEvent → StepOutcome
  | .invoke req =>
    match upsert s.cache req with
    | .error e => .fail s e
    | .ok (c, none) => .next { s with cache := c }
    | .ok (c, some (name, api)) =>
      .next { cache := c,
              spawned := if only_lambda_apis then s.spawned
                         else s.spawned ++ [(name, api)] }
  | .gc name => .next { s with cache := clean s.cache name }
  | .shutdown => .halt s

/-- How a run of the Scheduler loop ended: `Ok(())` from the shutdown branch,
an error propagated by the question mark on an upsert, or still blocked in the
select with the given event sequence exhausted. -/
inductive LoopResult where
  | ok
  | err (e : ServerError)
  | pending
  deriving DecidableEq, Repr

/-- Translation of the `start_scheduler` loop (scheduler.rs lines 34-81) run
against one serialized sequence of select outcomes: iterate `schedStep` until
the shutdown branch returns, an upsert error propagates, or the events run
out. -/
def start_scheduler (only_lambda_apis : Bool) (s : SchedState) :
    List SchedEvent → SchedState × LoopResult
  | [] => (s, .pending)
  | ev :: rest =>
    match schedStep only_lambda_apis s ev with
    | .next s' => start_scheduler only_lambda_apis s' rest
    | .halt s' => (s', .ok)
    | .fail s' e => (s', .err e)

/-- One request on the construction worker's channel (scheduler.rs lines
42-47): the oneshot reply channel (identified by a tag), the start command and
the watcher config. The ExtensionCache travelling in the same tuple is opaque
to the worker and omitted. -/
structure ConstructionRequest where
  chan : Nat
  cmd : Command
  config : WatcherConfig
  deriving DecidableEq, Repr

/-- Translation of the construction worker loop (scheduler.rs lines 49-54):
`while let Some(..) = wx_rx.recv()` — take the next request in arrival order,
run the watcher builder (`crate::watcher::new`, outside the sources at hand,
abstracted as the `build` argument), and send the result on that request's
oneshot channel. Output: the replies in emission order, each tagged with the
oneshot channel it was sent on. -/
def worker_loop (build : Command → WatcherConfig → Except ServerError Unit) :
    List ConstructionRequest → List (Nat × Except ServerError Unit)
  | [] => []
  | r :: rest => (r.chan, build r.cmd r.config) :: worker_loop build rest

/-- Process-wide shared state (`crate::state::RuntimeState`): the scheduler
only touches its `req_cache` (and clones its extension cache, opaque here). -/
structure RuntimeState where
  req_cache : ReqCache
  deriving DecidableEq, Repr

/-- Observable effects of `init_scheduler` (scheduler.rs lines 19-32): the
capacity of the ingress `mpsc::channel::<InvokeRequest>` it creates, the name
of the subsystem it starts, and whether it returns the ingress sender
`req_tx`. -/
structure InitResult where
  ingress_capacity : Nat
  subsystem_name : String
  sender_returned : Bool
  deriving DecidableEq, Repr

/-- Translation of `init_scheduler` (scheduler.rs lines 19-32): creates the
ingress channel with capacity 100, starts the "lambda scheduler" subsystem,
and returns the ingress sender; none of this depends on the arguments. -/
def init_scheduler (state : RuntimeState) (cargo_options : CargoOptions)
    (watcher_config : WatcherConfig) : InitResult :=
  { ingress_capacity := 100,
    subsystem_name := "lambda scheduler",
    sender_returned := true }

/-- Capacity of the garbage-collect `mpsc::channel::<String>` created by
`start_scheduler` (scheduler.rs line 41). -/
def gc_channel_capacity : Nat := 10

/-- Capacity of the construction worker's request channel created by
`start_scheduler` (scheduler.rs lines 42-47). -/
def wx_channel_capacity : Nat := 10

/-- Validity of one scheduler event: an invocation is valid when its function
name is not structurally invalid; garbage-collect and shutdown events are
always valid. -/
def eventValid : SchedEvent → Bool
  | .invoke req => !req.invalid
  | .gc _ => true
  | .shutdown => true

/-- The spawn directive returned by a successful upsert (`none` on error). -/
def upsertDirective (c : ReqCache) (req : InvokeRequest) :
    Option (String × String) :=
  match upsert c req with
  | .ok (_, d) => d
  | .error _ => none

/-- The cache state after an upsert (unchanged on error). -/
def upsertState (c : ReqCache) (req : InvokeRequest) : ReqCache :=
  match upsert c req with
  | .ok (c', _) => c'
  | .error _ => c

/-- The flag-and-value pairs of a cargo command, base arguments. -/
def baseRunArgs (cargo_options : CargoOptions) : List String :=
  ["run"] ++
    (match cargo_options.features with
      | some features => ["--features", features]
      | none => []) ++
    (if cargo_options.release then ["--release"] else [])

/- Concrete fixtures used by counterexamples and witnesses. -/

/-- An empty Request Cache. -/
def cache0 : ReqCache := ⟨[], 0⟩

/-- The initial Scheduler state. -/
def sched0 : SchedState := ⟨cache0, []⟩

/-- A structurally invalid invocation request. -/
def req_bad : InvokeRequest := ⟨"bad fn", true, 0⟩

/-- A first invocation of the function named hello. -/
def req_hello : InvokeRequest := ⟨"hello", false, 0⟩

/-- A second invocation of the function named hello. -/
def req_hello2 : InvokeRequest := ⟨"hello", false, 1⟩

/-- The cache after the spawning upsert of `req_hello` into `cache0`. -/
def cache_hello : ReqCache := ⟨[("hello", ⟨"0", [req_hello]⟩)], 1⟩

/-- Default cargo options: no features, debug build. -/
def co0 : CargoOptions := ⟨none, false, none⟩

/-- A minimal watcher configuration. -/
def wc0 : WatcherConfig := ⟨false, none, "", ""⟩

/-! ## Cache lemmas -/

/-- After removing a name from the association list, lookup of that name finds
nothing. -/
theorem findEntry_removeEntry (l : List (String × FunctionEntry))
    (name : String) : findEntry (removeEntry l name) name = none := by
  induction l with
  | nil => rfl
  | cons p rest ih =>
    by_cases h : p.1 = name
    · simp [removeEntry, h, ih]
    · simp [removeEntry, findEntry, h, ih]

/-- Updating a present name's entry makes lookup of that name return the new
entry. -/
theorem findEntry_updateEntry (l : List (String × FunctionEntry))
    (name : String) (e e0 : FunctionEntry)
    (h : findEntry l name = some e0) :
    findEntry (updateEntry l name e) name = some e := by
  induction l with
  | nil => simp [findEntry] at h
  | cons p rest ih =>
    by_cases hp : p.1 = name
    · simp [updateEntry, findEntry, hp]
    · simp [findEntry, hp] at h
      simp [updateEntry, findEntry, hp, ih h]

/-- Appending an entry for an absent name makes lookup of that name return
it. -/
theorem findEntry_append (l : List (String × FunctionEntry)) (name : String)
    (e : FunctionEntry) (h : findEntry l name = none) :
    findEntry (l ++ [(name, e)]) name = some e := by
  induction l with
  | nil => simp [findEntry]
  | cons p rest ih =>
    by_cases hp : p.1 = name
    · simp [findEntry, hp] at h
    · simp [findEntry, hp] at h ⊢
      exact ih h

/-- An upsert of a valid request never errors. -/
theorem upsert_ok (c : ReqCache) (req : InvokeRequest)
    (h : req.invalid = false) :
    ∃ c' d, upsert c req = .ok (c', d) := by
  unfold upsert
  rw [h]
  cases hf : findEntry c.entries req.functionName <;> simp

/-- An upsert of a valid request for a present function only enqueues: it
returns no spawn directive, replaces the entry's queue with the queue extended
by the request, and leaves the API counter alone. -/
theorem upsert_enqueue (c : ReqCache) (req : InvokeRequest)
    (e : FunctionEntry) (h : req.invalid = false)
    (he : findEntry c.entries req.functionName = some e) :
    upsert c req =
      .ok ({ c with
              entries := updateEntry c.entries req.functionName
                ⟨e.apiId, e.queue ++ [req]⟩ },
           none) := by
  unfold upsert
  rw [h, he]
  rfl

/-- An upsert of a valid request for an absent function spawns: it returns the
directive carrying the fresh API id and appends a fresh entry whose queue
holds exactly the request. -/
theorem upsert_spawn (c : ReqCache) (req : InvokeRequest)
    (h : req.invalid = false)
    (he : findEntry c.entries req.functionName = none) :
    upsert c req =
      .ok (⟨c.entries ++ [(req.functionName, ⟨toString c.nextApi, [req]⟩)],
            c.nextApi + 1⟩,
           some (req.functionName, toString c.nextApi)) := by
  unfold upsert
  rw [h, he]
  rfl

/-- A run of valid upserts for a function that is already present yields no
spawn directive at any call, extends that function's queue by the requests in
submission order, preserves its API id, and leaves the fresh-id counter
alone. -/
theorem upsertAll_enqueue (name : String) (reqs : List InvokeRequest) :
    ∀ (c : ReqCache) (e : FunctionEntry),
    findEntry c.entries name = some e →
    (∀ r ∈ reqs, r.functionName = name ∧ r.invalid = false) →
    ∃ c', upsertAll c reqs = .ok (c', reqs.map (fun _ => none)) ∧
      findEntry c'.entries name = some ⟨e.apiId, e.queue ++ reqs⟩ ∧
      c'.nextApi = c.nextApi := by
  induction reqs with
  | nil =>
    intro c e he _
    exact ⟨c, rfl, by simpa using he, rfl⟩
  | cons r rest ih =>
    intro c e he hall
    obtain ⟨hr1, hr2⟩ := hall r (List.mem_cons_self r rest)
    have hupd := upsert_enqueue c r e hr2 (by rw [hr1]; exact he)
    have hfind : findEntry
        (updateEntry c.entries r.functionName ⟨e.apiId, e.queue ++ [r]⟩) name
        = some ⟨e.apiId, e.queue ++ [r]⟩ := by
      rw [hr1]
      exact findEntry_updateEntry c.entries name ⟨e.apiId, e.queue ++ [r]⟩ e he
    obtain ⟨c', h1, h2, h3⟩ :=
      ih { c with
            entries := updateEntry c.entries r.functionName
              ⟨e.apiId, e.queue ++ [r]⟩ }
        ⟨e.apiId, e.queue ++ [r]⟩ hfind
        (fun x hx => hall x (List.mem_cons_of_mem r hx))
    refine ⟨c', ?_, ?_, ?_⟩
    · simp [upsertAll, hupd, h1]
    · simpa [List.append_assoc] using h2
    · simpa using h3

/-- A name is a valid binary name exactly when it is non-empty and differs
from the default-package sentinel. -/
theorem is_valid_bin_name_iff (name : String) :
    is_valid_bin_name name = true ↔
      name ≠ "" ∧ name ≠ DEFAULT_PACKAGE_FUNCTION := by
  simp [is_valid_bin_name]

/-- The cargo command's arguments are the base run arguments followed by the
bin selector exactly when the name is a valid binary name. -/
theorem cargo_command_args (name : String) (cargo_options : CargoOptions) :
    (cargo_command name cargo_options).args =
      baseRunArgs cargo_options ++
        (if is_valid_bin_name name then ["--bin", name] else []) := by
  rcases hfe : cargo_options.features with _ | f <;>
    cases hrel : cargo_options.release <;>
    cases hval : is_valid_bin_name name <;>
    simp [cargo_command, baseRunArgs, Command.args, hfe, hrel, hval]

/-- The base run arguments never contain the token "--bin", provided the
features value is not that very literal. -/
theorem bin_not_mem_baseRunArgs (cargo_options : CargoOptions)
    (hf : cargo_options.features ≠ some "--bin") :
    "--bin" ∉ baseRunArgs cargo_options := by
  rcases hfe : cargo_options.features with _ | f
  · cases cargo_options.release <;> simp [baseRunArgs, hfe]
  · have hne : ¬("--bin" = f) := fun hc => hf (by rw [hfe, ← hc])
    cases cargo_options.release <;> simp [baseRunArgs, hfe, hne]

/-! ## Claims -/

/-- C1, counterexample: the question mark on `state.req_cache.upsert(req)`
(scheduler.rs line 59) propagates an upsert error out of `start_scheduler`. On
the event sequence [invalid invocation, valid invocation, shutdown] the loop
returns that error, does not return via the shutdown branch, and never
processes the two subsequent events (the final state is untouched), refuting
the claim that an upsert error never terminates the loop. -/
theorem claim1_upsert_error_stops_loop :
    (start_scheduler false sched0
        [.invoke req_bad, .invoke req_hello, .shutdown]).2
      = .err (.invalidFunction "bad fn") ∧
    (start_scheduler false sched0
        [.invoke req_bad, .invoke req_hello, .shutdown]).2 ≠ .ok ∧
    (start_scheduler false sched0
        [.invoke req_bad, .invoke req_hello, .shutdown]).1 = sched0 := by
  decide

/-- C1, amended: an upsert error terminates the Scheduler loop with that
error; when every invocation in the event sequence is valid, the loop never
fails, keeps processing invocation and garbage-collect events, and returns
`Ok(())` exactly when the shutdown signal is received. -/
theorem claim1_loop_continues_amended (only_lambda_apis : Bool)
    (events : List SchedEvent) :
    ∀ (s : SchedState), events.all eventValid = true →
    (((start_scheduler only_lambda_apis s events).2 = .ok ↔
        SchedEvent.shutdown ∈ events) ∧
     ((start_scheduler only_lambda_apis s events).2 = .ok ∨
      (start_scheduler only_lambda_apis s events).2 = .pending)) := by
  induction events with
  | nil =>
    intro s _
    simp [start_scheduler]
  | cons ev rest ih =>
    intro s h
    rw [List.all_cons, Bool.and_eq_true] at h
    obtain ⟨hev, hrest⟩ := h
    cases ev with
    | invoke req =>
      have hv : req.invalid = false := by
        simpa [eventValid] using hev
      obtain ⟨c', d, hup⟩ := upsert_ok s.cache req hv
      cases d with
      | none =>
        simpa [start_scheduler, schedStep, hup] using ih _ hrest
      | some p =>
        simpa [start_scheduler, schedStep, hup] using ih _ hrest
    | gc name =>
      simpa [start_scheduler, schedStep] using ih _ hrest
    | shutdown =>
      simp [start_scheduler, schedStep]

/-- C1, witness for the amended claim at a concrete valid trace. -/
theorem claim1_loop_continues_amended_witness :
    ((start_scheduler false sched0
        [.invoke req_hello, .gc "hello", .shutdown]).2 = .ok ↔
      SchedEvent.shutdown ∈
        ([.invoke req_hello, .gc "hello", .shutdown] : List SchedEvent)) ∧
    ((start_scheduler false sched0
        [.invoke req_hello, .gc "hello", .shutdown]).2 = .ok ∨
     (start_scheduler false sched0
        [.invoke req_hello, .gc "hello", .shutdown]).2 = .pending) :=
  claim1_loop_continues_amended false
    [.invoke req_hello, .gc "hello", .shutdown] sched0 (by decide)

/-- C2, counterexample: a failed Process Supervisor construction makes
`start_function` return the error with no garbage-collect message, so nothing
ever cleans the cache entry the spawning upsert created; a later upsert for
the same name then yields no spawn directive, refuting the claim that the
function is left absent from the cache and retried. -/
theorem claim2_entry_not_removed_counterexample :
    (start_function "hello" "0" co0 wc0
        ⟨.failed .watcherConstruction, .processExit, true⟩).result
      = .error .watcherConstruction ∧
    (start_function "hello" "0" co0 wc0
        ⟨.failed .watcherConstruction, .processExit, true⟩).gcSent = [] ∧
    upsertDirective cache0 req_hello = some ("hello", "0") ∧
    upsertDirective (upsertState cache0 req_hello) req_hello2 = none := by
  decide

/-- C2, amended: a failed construction is fatal to that Function Runner
(`start_function` returns the error), produces no garbage-collect message and
no shutdown broadcast; since nothing removes the cache entry, the function
stays present and a later valid upsert for it only enqueues (no spawn
directive) until `clean` is invoked. -/
theorem claim2_construction_failure_amended (name runtime_api : String)
    (co : CargoOptions) (wc : WatcherConfig) (env : RunnerEnv)
    (e : ServerError) (c : ReqCache) (r : InvokeRequest)
    (entry : FunctionEntry)
    (hrep : env.reply = .failed e) (hv : r.invalid = false)
    (hin : lookupFn c r.functionName = some entry) :
    (start_function name runtime_api co wc env).result = .error e ∧
    (start_function name runtime_api co wc env).gcSent = [] ∧
    (start_function name runtime_api co wc env).events = [] ∧
    upsert c r =
      .ok ({ c with
              entries := updateEntry c.entries r.functionName
                ⟨entry.apiId, entry.queue ++ [r]⟩ },
           none) := by
  obtain ⟨reply, race, gco⟩ := env
  cases hrep
  exact ⟨rfl, rfl, rfl, upsert_enqueue c r entry hv hin⟩

/-- C2, witness for the amended claim at a concrete failed construction. -/
theorem claim2_construction_failure_amended_witness :
    (start_function "hello" "0" co0 wc0
        ⟨.failed .watcherConstruction, .shutdownRequested, true⟩).result
      = .error .watcherConstruction ∧
    (start_function "hello" "0" co0 wc0
        ⟨.failed .watcherConstruction, .shutdownRequested, true⟩).gcSent = [] ∧
    (start_function "hello" "0" co0 wc0
        ⟨.failed .watcherConstruction, .shutdownRequested, true⟩).events = [] ∧
    upsert cache_hello req_hello2 =
      .ok (⟨[("hello", ⟨"0", [req_hello, req_hello2]⟩)], 1⟩, none) :=
  claim2_construction_failure_amended "hello" "0" co0 wc0
    ⟨.failed .watcherConstruction, .shutdownRequested, true⟩
    .watcherConstruction cache_hello req_hello2 ⟨"0", [req_hello]⟩
    rfl rfl rfl

/-- C3: starting from a cache where the function is not started, exactly the
first upsert returns the spawn directive (carrying the fresh API id) and every
later upsert for that name returns none and only enqueues, in submission
order; cleaning the name empties its entry and the very next upsert for it
again returns a spawn directive. -/
theorem claim3_spawn_once (c : ReqCache) (name : String)
    (req r' : InvokeRequest) (reqs : List InvokeRequest)
    (habs : lookupFn c name = none)
    (hreq : req.functionName = name) (hreqv : req.invalid = false)
    (hall : ∀ r ∈ reqs, r.functionName = name ∧ r.invalid = false)
    (hr' : r'.functionName = name) (hr'v : r'.invalid = false) :
    ∃ c',
      upsertAll c (req :: reqs) =
        .ok (c', some (name, toString c.nextApi) :: reqs.map (fun _ => none)) ∧
      lookupFn c' name = some ⟨toString c.nextApi, req :: reqs⟩ ∧
      lookupFn (clean c' name) name = none ∧
      upsert (clean c' name) r' =
        .ok (⟨(clean c' name).entries ++
                [(name, ⟨toString (clean c' name).nextApi, [r']⟩)],
              (clean c' name).nextApi + 1⟩,
             some (name, toString (clean c' name).nextApi)) := by
  subst hreq
  have habs' : findEntry c.entries req.functionName = none := habs
  have hspawn := upsert_spawn c req hreqv habs'
  have hfind1 : findEntry
      (c.entries ++ [(req.functionName, ⟨toString c.nextApi, [req]⟩)])
      req.functionName = some ⟨toString c.nextApi, [req]⟩ :=
    findEntry_append c.entries req.functionName _ habs'
  obtain ⟨c', h1, h2, _⟩ :=
    upsertAll_enqueue req.functionName reqs
      ⟨c.entries ++ [(req.functionName, ⟨toString c.nextApi, [req]⟩)],
       c.nextApi + 1⟩
      ⟨toString c.nextApi, [req]⟩ hfind1 hall
  have hclean : findEntry (clean c' req.functionName).entries
      req.functionName = none :=
    findEntry_removeEntry c'.entries req.functionName
  refine ⟨c', ?_, ?_, hclean, ?_⟩
  · simp only [upsertAll, hspawn, h1]
  · simpa [lookupFn] using h2
  · have h3 := upsert_spawn (clean c' req.functionName) r' hr'v
      (by rw [hr']; exact hclean)
    rw [hr'] at h3
    exact h3

/-- C3, witness: three invocations of hello against an empty cache produce one
spawn directive then none, queue in submission order, and after clean the next
upsert spawns again. -/
theorem claim3_spawn_once_witness :
    ∃ c',
      upsertAll cache0 [req_hello, req_hello2] =
        .ok (c', [some ("hello", "0"), none]) ∧
      lookupFn c' "hello" = some ⟨"0", [req_hello, req_hello2]⟩ ∧
      lookupFn (clean c' "hello") "hello" = none ∧
      upsert (clean c' "hello") req_hello2 =
        .ok (⟨(clean c' "hello").entries ++
                [("hello", ⟨toString (clean c' "hello").nextApi, [req_hello2]⟩)],
              (clean c' "hello").nextApi + 1⟩,
             some ("hello", toString (clean c' "hello").nextApi)) :=
  claim3_spawn_once cache0 "hello" req_hello req_hello2 [req_hello2]
    rfl rfl rfl (by decide) rfl rfl

/-- C4: in the Function Runner's race (scheduler.rs lines 117-126), a runner
that observes the shutdown branch first sends no garbage-collect message,
while one that observes process-exit first sends exactly one garbage-collect
message carrying its function name. -/
theorem claim4_gc_race (name runtime_api : String) (co : CargoOptions)
    (wc : WatcherConfig) (env : RunnerEnv) (h : env.reply = .built) :
    (env.race = .shutdownRequested →
      (start_function name runtime_api co wc env).gcSent = []) ∧
    (env.race = .processExit →
      (start_function name runtime_api co wc env).gcSent = [name]) := by
  obtain ⟨reply, race, gco⟩ := env
  cases h
  cases race <;> simp [start_function]

/-- C4, witness at both race outcomes. -/
theorem claim4_gc_race_witness :
    (start_function "hello" "0" co0 wc0 ⟨.built, .processExit, true⟩).gcSent
      = ["hello"] ∧
    (start_function "hello" "0" co0 wc0
        ⟨.built, .shutdownRequested, true⟩).gcSent = [] :=
  ⟨(claim4_gc_race "hello" "0" co0 wc0 ⟨.built, .processExit, true⟩ rfl).2 rfl,
   (claim4_gc_race "hello" "0" co0 wc0
      ⟨.built, .shutdownRequested, true⟩ rfl).1 rfl⟩

/-- C5: every Function Runner that reaches the race broadcasts, whichever
branch wins, exactly one Shutdown NextEvent whose reason is the function name
followed by " function shutting down" before it exits. -/
theorem claim5_shutdown_broadcast (name runtime_api : String)
    (co : CargoOptions) (wc : WatcherConfig) (env : RunnerEnv)
    (h : env.reply = .built) :
    (start_function name runtime_api co wc env).events =
      [NextEvent.shutdown (name ++ " function shutting down")] := by
  obtain ⟨reply, race, gco⟩ := env
  cases h
  cases race <;> simp [start_function]

/-- C5, witness at a concrete runner whose process exited. -/
theorem claim5_shutdown_broadcast_witness :
    (start_function "hello" "0" co0 wc0 ⟨.built, .processExit, true⟩).events =
      [NextEvent.shutdown ("hello" ++ " function shutting down")] :=
  claim5_shutdown_broadcast "hello" "0" co0 wc0 ⟨.built, .processExit, true⟩ rfl

/-- C6: a function name that is empty or equals the default-package sentinel
yields a cargo command without the --bin selector and a WatcherConfig with no
bin name; any other name yields a command whose arguments end with --bin
followed by exactly that name (and --bin appears nowhere else), and a
WatcherConfig carrying that bin name. The hypothesis only rules out the
features value being the literal string "--bin", which would confuse token
membership, not selectors. -/
theorem claim6_bin_name_derivation (name runtime_api : String)
    (co : CargoOptions) (wc : WatcherConfig)
    (hf : co.features ≠ some "--bin") :
    ((name = "" ∨ name = DEFAULT_PACKAGE_FUNCTION) →
      "--bin" ∉ (cargo_command name co).args ∧
      (runnerWatcherConfig name runtime_api wc).bin_name = none) ∧
    (name ≠ "" → name ≠ DEFAULT_PACKAGE_FUNCTION →
      ∃ l, (cargo_command name co).args = l ++ ["--bin", name] ∧
        "--bin" ∉ l ∧
        (runnerWatcherConfig name runtime_api wc).bin_name = some name) := by
  constructor
  · intro hn
    have hval : is_valid_bin_name name = false := by
      rcases hn with rfl | rfl <;> decide
    constructor
    · rw [cargo_command_args, hval]
      simpa using bin_not_mem_baseRunArgs co hf
    · simp [runnerWatcherConfig, hval]
  · intro h1 h2
    have hval : is_valid_bin_name name = true :=
      (is_valid_bin_name_iff name).mpr ⟨h1, h2⟩
    refine ⟨baseRunArgs co, ?_, bin_not_mem_baseRunArgs co hf, ?_⟩
    · simp [cargo_command_args, hval]
    · simp [runnerWatcherConfig, hval]

/-- C6, witness: a valid name with features and release set gets --bin
followed by exactly that name, and the bin name recorded. -/
theorem claim6_bin_name_derivation_witness :
    ∃ l, (cargo_command "hello" ⟨some "tokio", true, none⟩).args =
        l ++ ["--bin", "hello"] ∧
      "--bin" ∉ l ∧
      (runnerWatcherConfig "hello" "9" wc0).bin_name = some "hello" :=
  (claim6_bin_name_derivation "hello" "9" ⟨some "tokio", true, none⟩ wc0
    (by decide)).2 (by decide) (by decide)

/-- C7: when an upsert yields a spawn directive, the Scheduler step launches a
Function Runner carrying that name and API id exactly when `only_lambda_apis`
is false, and in either case the upsert's cache update is kept. -/
theorem claim7_spawn_gate (only_lambda_apis : Bool) (s : SchedState)
    (req : InvokeRequest) (c' : ReqCache) (name api : String)
    (h : upsert s.cache req = .ok (c', some (name, api))) :
    schedStep only_lambda_apis s (.invoke req) =
      .next { cache := c',
              spawned := if only_lambda_apis then s.spawned
                         else s.spawned ++ [(name, api)] } := by
  simp [schedStep, h]

/-- C7, witness: the same spawning upsert launches a runner with the flag off
and launches none with the flag on, updating the cache either way. -/
theorem claim7_spawn_gate_witness :
    schedStep false sched0 (.invoke req_hello) =
      .next { cache := cache_hello, spawned := [("hello", "0")] } ∧
    schedStep true sched0 (.invoke req_hello) =
      .next { cache := cache_hello, spawned := [] } :=
  ⟨claim7_spawn_gate false sched0 req_hello cache_hello "hello" "0" (by decide),
   claim7_spawn_gate true sched0 req_hello cache_hello "hello" "0" (by decide)⟩

/-- C8, counterexample: a construction-reply oneshot channel that is closed
makes `start_function` return an error (the first question mark on
scheduler.rs line 115 escalates it), refuting the claim that a closed
construction-reply channel is only logged and never escalated. -/
theorem claim8_reply_closed_escalates :
    (start_function "hello" "0" co0 wc0
        ⟨.closed, .processExit, true⟩).result = .error .replyChannelClosed := by
  decide

/-- C8, amended: a failed garbage-collect send is logged and not escalated —
the runner still returns Ok and the message it attempted carries its name —
but a closed construction-reply channel makes the Function Runner return an
error. -/
theorem claim8_delivery_errors_amended (name runtime_api : String)
    (co : CargoOptions) (wc : WatcherConfig) (env : RunnerEnv) :
    (env.reply = .built →
      (start_function name runtime_api co wc env).result = .ok ()) ∧
    (env.reply = .built → env.race = .processExit →
        env.gcChannelOpen = false →
      (start_function name runtime_api co wc env).gc_send_logged = true ∧
      (start_function name runtime_api co wc env).gcSent = [name]) ∧
    (env.reply = .closed →
      (start_function name runtime_api co wc env).result
        = .error .replyChannelClosed) := by
  obtain ⟨reply, race, gco⟩ := env
  cases reply <;> cases race <;> cases gco <;> simp [start_function]

/-- C8, witness: a runner whose gc send fails still returns Ok and logs, and a
runner whose reply channel closed returns the error. -/
theorem claim8_delivery_errors_amended_witness :
    (start_function "hello" "0" co0 wc0
        ⟨.built, .processExit, false⟩).result = .ok () ∧
    (start_function "hello" "0" co0 wc0
        ⟨.built, .processExit, false⟩).gc_send_logged = true ∧
    (start_function "hello" "0" co0 wc0
        ⟨.built, .processExit, false⟩).gcSent = ["hello"] ∧
    (start_function "hello" "0" co0 wc0
        ⟨.closed, .processExit, true⟩).result = .error .replyChannelClosed :=
  ⟨(claim8_delivery_errors_amended "hello" "0" co0 wc0
      ⟨.built, .processExit, false⟩).1 rfl,
   ((claim8_delivery_errors_amended "hello" "0" co0 wc0
      ⟨.built, .processExit, false⟩).2.1 rfl rfl rfl).1,
   ((claim8_delivery_errors_amended "hello" "0" co0 wc0
      ⟨.built, .processExit, false⟩).2.1 rfl rfl rfl).2,
   (claim8_delivery_errors_amended "hello" "0" co0 wc0
      ⟨.closed, .processExit, true⟩).2.2 rfl⟩

/-- C9: the construction worker handles requests one at a time in arrival
order, replying to each exactly once on that request's own oneshot channel
with the result of its own construction. -/
theorem claim9_worker_in_order
    (build : Command → WatcherConfig → Except ServerError Unit)
    (reqs : List ConstructionRequest) :
    worker_loop build reqs =
      reqs.map (fun r => (r.chan, build r.cmd r.config)) := by
  induction reqs with
  | nil => rfl
  | cons r rest ih => simp [worker_loop, ih]

/-- C10: regardless of its arguments, `init_scheduler` creates the ingress
channel with capacity exactly 100, starts the lambda scheduler subsystem and
returns the ingress sender; the scheduler's garbage-collect channel has
capacity 10. -/
theorem claim10_channel_capacities (state : RuntimeState)
    (cargo_options : CargoOptions) (watcher_config : WatcherConfig) :
    (init_scheduler state cargo_options watcher_config).ingress_capacity
      = 100 ∧
    gc_channel_capacity = 10 ∧
    (init_scheduler state cargo_options watcher_config).subsystem_name
      = "lambda scheduler" ∧
    (init_scheduler state cargo_options watcher_config).sender_returned
      = true :=
  ⟨rfl, rfl, rfl, rfl⟩

end CargoLambdaWatch
